import Mathlib

/-!
Shallow embedding of the playback-control subsystem of ytmusic-cli
(src/ytmusic_cli/player.py together with the progress loop of
src/ytmusic_cli/interface.py).

Modelling conventions:
* State that the Python code mutates is passed explicitly: `World` holds the
  process-wide state (the `_mpv_processes` registry, the `/tmp/mpvsocket`
  socket file, and the set of live engine processes) and `PlayerThreadState`
  holds the mutable fields of a `PlayerThread` object (`self.sock`,
  `self.process`).
* Durations are in tenths of a second: `sleep(0.5)` is `5`,
  `wait(timeout=2)` is `20`, `wait(timeout=1)` is `10`.
* Python exceptions are modelled by `PyExc`; `try`/`except` blocks are
  translated by explicit matches on the raised class, with the same coverage
  as the source's `except` clauses.  `BaseException`s that are not
  `Exception`s (KeyboardInterrupt, SystemExit) are outside the model.
* Fault injection: each fallible primitive gets a field of a fault structure
  describing whether (and with which class) it raises.  `TermFaults.envelope`
  records what CPython can actually raise at the two call sites whose
  handlers are not catch-all (`socket.shutdown` and `os.unlink` raise only
  `OSError`s).
-/

namespace YtmusicCli

/-- The Python exception classes that the player code distinguishes. -/
inductive PyExc
  | processLookup   -- ProcessLookupError (a subclass of OSError)
  | osErr           -- OSError / socket.error / ConnectionRefusedError etc.
  | timeoutExpired  -- subprocess.TimeoutExpired
  | typeError       -- TypeError
  | keyError        -- KeyError
  | jsonDecode      -- json.JSONDecodeError / UnicodeDecodeError
  | generic         -- any other Exception
  deriving DecidableEq, Repr

/-- `except OSError` (and `except (socket.error, OSError)`) coverage:
ProcessLookupError is an OSError subclass. -/
def PyExc.isOSError : PyExc → Bool
  | .processLookup => true
  | .osErr => true
  | _ => false

/-- Observable actions of the supervisor code, used to state ordering and
escalation properties.  Signals and waits carry the pid they target. -/
inductive Ev
  | sockShutdown                    -- self.sock.shutdown(SHUT_RDWR)
  | sockClose                       -- self.sock.close()
  | regAdd (pid : Nat)              -- _mpv_processes.add(pid)
  | regDiscard (pid : Nat)          -- _mpv_processes.discard(pid)
  | spawn (pid : Nat)               -- subprocess.Popen(...)
  | sleepTenths (t : Nat)           -- time.sleep
  | connectAttempt (i : Nat)        -- sock.connect(IPC_SERVER_PATH), attempt i
  | killpgTerm (pid : Nat)          -- os.killpg(pgid, SIGTERM)
  | procTerminate (pid : Nat)       -- process.terminate()
  | procWaitTenths (pid t : Nat)    -- process.wait(timeout = t/10 s)
  | killpgKill (pid : Nat)          -- os.killpg(pgid, SIGKILL)
  | procKill (pid : Nat)            -- process.kill()
  | osKillById (pid : Nat)          -- os.kill(pid, SIGKILL), last resort
  | unlinkSocket                    -- os.unlink(IPC_SERVER_PATH)
  deriving DecidableEq, Repr

/-- Process-wide state: the `_mpv_processes` registry (a set of pids), whether
the IPC socket file exists, and which engine processes are currently alive
(`pid ∈ live` models `process.poll() is None`). -/
structure World where
  registry : List Nat
  sockFile : Bool
  live : List Nat
  deriving DecidableEq, Repr

/-- The mutable fields of one `PlayerThread`: whether `self.sock` holds a
socket object, and `self.process` (the spawned engine's pid, if any). -/
structure PlayerThreadState where
  sock : Bool
  process : Option Nat
  deriving DecidableEq, Repr

/-- Python `set.add`: no duplicates. -/
def setAdd (x : Nat) (l : List Nat) : List Nat :=
  if x ∈ l then l else l ++ [x]

/-- Fault injection for `PlayerThread.terminate` (player.py lines 197-265).
Each field states whether (and with which class) a primitive raises. -/
structure TermFaults where
  shutdownExc : Option PyExc   -- sock.shutdown; CPython raises only OSErrors here
  killpgTermErr : Bool         -- getpgid/killpg(SIGTERM) raises one of the classes
                               -- listed at line 227 (all are caught there)
  terminateExc : Option PyExc  -- fallback process.terminate()
  waitExc : Option PyExc       -- process.wait(timeout=2): none means it returned
  killpgKillErr : Bool         -- getpgid/killpg(SIGKILL) raises (caught at line 242)
  killExc : Option PyExc       -- fallback process.kill()
  osKillErr : Bool             -- last-resort os.kill raises ProcessLookupError/OSError
  unlinkExc : Option PyExc     -- os.unlink; CPython raises only OSErrors here
  deriving DecidableEq, Repr

/-- No injected faults. -/
def TermFaults.noFaults : TermFaults :=
  ⟨none, false, none, none, false, none, false, none⟩

/-- The injected exceptions respect what CPython can raise at the two call
sites whose handlers are not catch-all: `socket.shutdown` and `os.unlink`
raise only `OSError`s. -/
def TermFaults.envelope (f : TermFaults) : Bool :=
  f.shutdownExc.all PyExc.isOSError && f.unlinkExc.all PyExc.isOSError

/-- The effect of a fragment of supervisor code: resulting world, the events
it performed, and the worlds at each intermediate observation point. -/
structure Eff where
  w : World
  tr : List Ev
  hist : List World
  deriving DecidableEq, Repr

/-- Lines 199-210: close the socket first.  `shutdown` errors are caught by
`except (socket.error, OSError)`; `close` errors by `except Exception`; the
`finally` clearing `self.sock` is attached to the `close` try, so an
exception escaping `shutdown` (impossible in CPython, where it raises only
OSErrors) would leave `self.sock` set and abort the whole teardown. -/
def closeSocketStep (ts : PlayerThreadState) (f : TermFaults) :
    PlayerThreadState × List Ev × Option PyExc :=
  if ts.sock then
    match f.shutdownExc with
    | some e =>
        if e.isOSError then ({ ts with sock := false }, [Ev.sockShutdown, Ev.sockClose], none)
        else (ts, [Ev.sockShutdown], some e)
    | none => ({ ts with sock := false }, [Ev.sockShutdown, Ev.sockClose], none)
  else (ts, [], none)

/-- Lines 251-256: the outer `except Exception` handler's last resort,
`os.kill(pid, SIGKILL)`, itself guarded by
`except (ProcessLookupError, OSError)`. -/
def lastResortKill (p : Nat) (w : World) (f : TermFaults) : Eff :=
  if f.osKillErr then ⟨w, [Ev.osKillById p], [w]⟩
  else
    let w' := { w with live := w.live.erase p }
    ⟨w', [Ev.osKillById p], [w']⟩

/-- Lines 246-256: the outer handlers of the process-termination block.
`except ProcessLookupError: pass`; any other `Exception` falls to the
last-resort kill-by-pid. -/
def outerCatch (p : Nat) (w : World) (f : TermFaults) (e : PyExc) : Eff :=
  match e with
  | PyExc.processLookup => ⟨w, [], [w]⟩
  | _ => lastResortKill p w f

/-- Lines 222-231: deliver SIGTERM to the process group, falling back to
`process.terminate()` when `getpgid`/`killpg` raises; a `ProcessLookupError`
from the fallback is caught by the inner handler (line 230), any other class
escapes to the outer handlers.  Returns the events and the escaping class. -/
def sigTermPhase (p : Nat) (f : TermFaults) : List Ev × Option PyExc :=
  if !f.killpgTermErr then ([Ev.killpgTerm p], none)
  else
    match f.terminateExc with
    | none => ([Ev.procTerminate p], none)
    | some PyExc.processLookup => ([Ev.procTerminate p], none)
    | some e => ([Ev.procTerminate p], some e)

/-- Lines 236-245: after `wait(2)` times out, deliver SIGKILL to the group,
falling back to `process.kill()`; a `ProcessLookupError` from the fallback is
caught at line 244, any other class escapes to the outer handlers. -/
def sigKillPhase (p : Nat) (w : World) (f : TermFaults) : Eff × Option PyExc :=
  if !f.killpgKillErr then
    let w' := { w with live := w.live.erase p }
    (⟨w', [Ev.killpgKill p], [w']⟩, none)
  else
    match f.killExc with
    | none =>
        let w' := { w with live := w.live.erase p }
        (⟨w', [Ev.procKill p], [w']⟩, none)
    | some PyExc.processLookup => (⟨w, [Ev.procKill p], [w]⟩, none)
    | some e => (⟨w, [Ev.procKill p], [w]⟩, some e)

/-- Lines 220-256: graceful termination of a still-running process `p`:
SIGTERM (group-preferred), `wait(timeout=2)`, SIGKILL (group-preferred) on
timeout; exceptions route through the outer handlers.  A process leaves
`live` when a kill signal is delivered or `wait` confirms its exit. -/
def gracefulTerm (p : Nat) (w : World) (f : TermFaults) : Eff :=
  match sigTermPhase p f with
  | (trT, some e) =>
      let r := outerCatch p w f e
      ⟨r.w, trT ++ r.tr, r.hist⟩
  | (trT, none) =>
      match f.waitExc with
      | none =>
          let w' := { w with live := w.live.erase p }
          ⟨w', trT ++ [Ev.procWaitTenths p 20], [w']⟩
      | some PyExc.timeoutExpired =>
          match sigKillPhase p w f with
          | (rK, some e) =>
              let r := outerCatch p rK.w f e
              ⟨r.w, trT ++ [Ev.procWaitTenths p 20] ++ rK.tr ++ r.tr, rK.hist ++ r.hist⟩
          | (rK, none) =>
              ⟨rK.w, trT ++ [Ev.procWaitTenths p 20] ++ rK.tr, rK.hist⟩
      | some PyExc.processLookup =>
          ⟨w, trT ++ [Ev.procWaitTenths p 20], [w]⟩
      | some e =>
          let r := outerCatch p w f e
          ⟨r.w, trT ++ [Ev.procWaitTenths p 20] ++ r.tr, r.hist⟩

/-- Lines 212-258: the process-termination block of `terminate`.  Note that
the registry `discard` (lines 216-218) is the FIRST statement of the block,
before any signal is sent; the `finally` clearing `self.process` is handled
by the caller. -/
def procStep (ts : PlayerThreadState) (w : World) (f : TermFaults) : Eff :=
  match ts.process with
  | none => ⟨w, [], []⟩
  | some p =>
      let wA := { w with registry := w.registry.erase p }
      if p ∈ w.live then
        let r := gracefulTerm p wA f
        ⟨r.w, Ev.regDiscard p :: r.tr, wA :: r.hist⟩
      else ⟨wA, [Ev.regDiscard p], [wA]⟩

/-- Lines 260-265: unlink the socket file if it still exists, with
`except OSError: pass`; any non-OSError (impossible in CPython) escapes. -/
def unlinkStep (w : World) (f : TermFaults) : World × List Ev × Option PyExc :=
  if w.sockFile then
    match f.unlinkExc with
    | some e =>
        if e.isOSError then (w, [Ev.unlinkSocket], none)
        else (w, [Ev.unlinkSocket], some e)
    | none => ({ w with sockFile := false }, [Ev.unlinkSocket], none)
  else (w, [], none)

/-- Result of `PlayerThread.terminate`: final thread fields, final world,
events, observation points, and the exception class escaping the call
(always `none` when faults respect the CPython envelope). -/
structure TermOut where
  ts : PlayerThreadState
  w : World
  tr : List Ev
  hist : List World
  escaped : Option PyExc
  deriving DecidableEq, Repr

/-- Shallow embedding of `PlayerThread.terminate` (player.py lines 197-265):
close the socket, then (registry discard first) terminate the process with
escalation, then unlink the socket file. -/
def PlayerThread.terminate (ts : PlayerThreadState) (w : World) (f : TermFaults) : TermOut :=
  match closeSocketStep ts f with
  | (ts1, tr1, some e) => ⟨ts1, w, tr1, [w], some e⟩
  | (ts1, tr1, none) =>
      let r := procStep ts1 w f
      let ts2 := { ts1 with process := none }
      match unlinkStep r.w f with
      | (w3, tr3, esc) => ⟨ts2, w3, tr1 ++ r.tr ++ tr3, r.hist ++ [w3], esc⟩

/-! ## Control channel: `send_command` / `get_property` -/

/-- A JSON scalar / leaf value as decoded by `json.loads`. -/
inductive JVal
  | jnull
  | jbool (b : Bool)
  | jnum (q : ℚ)
  | jstr (s : String)
  deriving DecidableEq, Repr

/-- Python truthiness of a decoded leaf value (used by `not is_paused`). -/
def JVal.truthy : JVal → Bool
  | .jnull => false
  | .jbool b => b
  | .jnum q => q != 0
  | .jstr s => s != ""

/-- The top-level shape of a value decoded by `json.loads`. -/
inductive PyJson
  | obj (fields : List (String × JVal))
  | arr (elems : List JVal)
  | scalar (v : JVal)
  deriving DecidableEq, Repr

/-- What `self.sock.recv(1024)` handed back, at parse granularity:
empty bytes (falsy), bytes that do not decode as JSON, or decoded JSON. -/
inductive RawResp
  | empty
  | malformed
  | decoded (j : PyJson)
  deriving DecidableEq, Repr

/-- Environment of one channel round trip: whether `sendall`/`recv` raises,
and the bytes received otherwise. -/
structure ChanEnv where
  sendExc : Option PyExc
  resp : RawResp
  deriving DecidableEq, Repr

/-- Whether `"data" in s` holds for Python strings (substring test). -/
def strContainsData (s : String) : Bool :=
  (s.splitOn "data").length ≥ 2

/-- Python `"data" in data` on a decoded JSON value: key test on dicts,
element test on lists, substring test on strings; TypeError on any other
top-level value (None, bool, number). -/
def pyContainsData : PyJson → Except PyExc Bool
  | .obj fields => .ok ((fields.lookup "data").isSome)
  | .arr elems => .ok (elems.contains (JVal.jstr "data"))
  | .scalar (JVal.jstr s) => .ok (strContainsData s)
  | .scalar _ => .error PyExc.typeError

/-- Python `data["data"]` on a decoded JSON value, as the Option-valued
result seen by the caller (`json` null decodes to Python `None`): dict lookup
on dicts, TypeError on lists and strings (string indices must be integers). -/
def pySubscriptData : PyJson → Except PyExc (Option JVal)
  | .obj fields =>
      match fields.lookup "data" with
      | some JVal.jnull => .ok none
      | some v => .ok (some v)
      | none => .error PyExc.keyError
  | _ => .error PyExc.typeError

/-- Shallow embedding of `PlayerThread.send_command` (player.py lines
267-296).  Returns `.ok none` when the socket is absent, when the process has
exited, or when any send/receive error is caught (both handlers, lines
291-296, return None); never propagates an exception. -/
def PlayerThread.send_command (ts : PlayerThreadState) (w : World) (env : ChanEnv) :
    Except PyExc (Option RawResp) :=
  if !ts.sock then .ok none
  else if (match ts.process with
           | some p => decide (p ∉ w.live)
           | none => false) then .ok none
  else
    match env.sendExc with
    | some e =>
        if e.isOSError then .ok none   -- except (socket.error, BrokenPipeError, ConnectionResetError)
        else .ok none                  -- except Exception
    | none => .ok (some env.resp)

/-- The classes caught by `get_property`'s handler (line 322):
`(json.JSONDecodeError, KeyError, UnicodeDecodeError)` — note TypeError is
not among them. -/
def getPropertyCaught : PyExc → Bool
  | .jsonDecode => true
  | .keyError => true
  | _ => false

/-- Shallow embedding of `PlayerThread.get_property` (player.py lines
306-324): send the query, and if a truthy response arrives, decode it and
return its `"data"` field; decode errors in the caught classes fall through
to `return None`, anything else (a TypeError from a non-dict top-level
value) propagates. -/
def PlayerThread.get_property (ts : PlayerThreadState) (w : World) (env : ChanEnv) :
    Except PyExc (Option JVal) :=
  match PlayerThread.send_command ts w env with
  | .error e => .error e
  | .ok none => .ok none
  | .ok (some RawResp.empty) => .ok none       -- `if response:` — b'' is falsy
  | .ok (some RawResp.malformed) => .ok none   -- json.JSONDecodeError caught
  | .ok (some (RawResp.decoded j)) =>
      match pyContainsData j with
      | .error e => if getPropertyCaught e then .ok none else .error e
      | .ok true =>
          match pySubscriptData j with
          | .error e => if getPropertyCaught e then .ok none else .error e
          | .ok v => .ok v
      | .ok false => .ok none                  -- falls through to `return None`

/-! ## Playback facade: `Player` -/

/-- The facade fields of `Player` that the claims are about
(`self.playing`, `self.playback`). -/
structure Facade where
  playing : Bool
  playback : Option PlayerThreadState
  deriving DecidableEq, Repr

/-- Shallow embedding of `Player.play` (player.py lines 483-492): send the
play action, re-query the paused state, and set `playing` from the answer
(`not is_paused if is_paused is not None else True`); any exception in the
body is caught (line 491) and leaves `playing` untouched. -/
def Player.play (fc : Facade) (w : World) (aEnv qEnv : ChanEnv) : Facade :=
  match fc.playback with
  | none => fc
  | some ts =>
      let body : Except PyExc Bool :=
        match PlayerThread.send_command ts w aEnv with
        | .error e => .error e
        | .ok _ =>
            match PlayerThread.get_property ts w qEnv with
            | .error e => .error e
            | .ok isPaused =>
                .ok (match isPaused with
                     | some v => !v.truthy
                     | none => true)
      match body with
      | .ok b => { fc with playing := b }
      | .error _ => fc

/-- Shallow embedding of `Player.pause` (player.py lines 494-503): like
`Player.play` but the unknown-answer fallback is `False`. -/
def Player.pause (fc : Facade) (w : World) (aEnv qEnv : ChanEnv) : Facade :=
  match fc.playback with
  | none => fc
  | some ts =>
      let body : Except PyExc Bool :=
        match PlayerThread.send_command ts w aEnv with
        | .error e => .error e
        | .ok _ =>
            match PlayerThread.get_property ts w qEnv with
            | .error e => .error e
            | .ok isPaused =>
                .ok (match isPaused with
                     | some v => !v.truthy
                     | none => false)
      match body with
      | .ok b => { fc with playing := b }
      | .error _ => fc

/-! ## Process supervisor: `PlayerThread.run` and `Player.start` / `Player.stop` -/

/-- The typed start failures of the spec, mapped from the exceptions raised
by `PlayerThread.run`: `engineNotFound` is the `FileNotFoundError` of line
134 (mpv absent from PATH), `connectFailed` the re-raised connect error of
line 187, `spawnFailed` a `subprocess.Popen` failure (lines 152-157). -/
inductive StartErr
  | engineNotFound
  | spawnFailed
  | connectFailed
  deriving DecidableEq, Repr

/-- Environment of one `PlayerThread.run` execution. -/
structure RunEnv where
  url : String             -- the playback target, passed to mpv's argv (opaque here)
  preSockAlive : Bool      -- a listener answers the probe of an existing socket file
  mpvFound : Bool          -- shutil.which('mpv') succeeds
  spawnOk : Bool           -- subprocess.Popen succeeds
  newPid : Nat             -- pid of the spawned engine
  connects : List Bool     -- connects.getD i false: connect attempt i succeeds
  inlineWaitOk : Bool      -- the wait(timeout=1) of line 183 returns in time
  tf : TermFaults          -- faults for the terminate() runs on the error path
  deriving DecidableEq, Repr

/-- Lines 168-190: the connect retry loop `for attempt in range(5)`:
sleep 0.5 s, then try to connect; stop at the first success.  Returns the
events and whether some attempt succeeded.  `i` is the index of the next
attempt, `fuel` the number of attempts left. -/
def connectLoop (conn : Nat → Bool) : Nat → Nat → List Ev × Bool
  | _, 0 => ([], false)
  | i, fuel + 1 =>
      if conn i then ([Ev.sleepTenths 5, Ev.connectAttempt i], true)
      else
        let rest := connectLoop conn (i + 1) fuel
        (Ev.sleepTenths 5 :: Ev.connectAttempt i :: rest.1, rest.2)

/-- The number of connect attempts the loop makes: the position of the first
success plus one, capped at the attempt budget. -/
def attemptsUsed (conn : Nat → Bool) : Nat → Nat → Nat
  | _, 0 => 0
  | i, fuel + 1 => if conn i then 1 else attemptsUsed conn (i + 1) fuel + 1

deriving instance DecidableEq for Except

/-- Result of one `PlayerThread.run`: the outcome the thread's body ended
with (an exception raised inside the worker, or success), the thread fields,
the world, the events, and the observation points. -/
structure RunOut where
  outcome : Except StartErr Unit
  ts : PlayerThreadState
  w : World
  tr : List Ev
  hist : List World
  deriving DecidableEq, Repr

/-- Lines 71-88, called at line 114: `_cleanup_orphaned_mpv` — if the socket
file exists but nothing answers a 0.5 s connect, unlink it (all errors
swallowed). -/
def cleanupOrphaned (pre : Bool) (w : World) : World :=
  if w.sockFile && !pre then { w with sockFile := false } else w

/-- Shallow embedding of `PlayerThread.run` (player.py lines 110-195):
remove a stale socket, resolve mpv (FileNotFoundError if absent), spawn the
engine in a new process group, register its pid, then retry the socket
connect up to 5 times with a 0.5 s sleep before each attempt; on exhaustion
terminate the fresh process (terminate, wait(timeout=1), kill on failure)
and re-raise.  The outer handler (lines 191-195) runs `self.terminate()` on
any exception and re-raises it. -/
def PlayerThread.run (env : RunEnv) (w0 : World) : RunOut :=
  let ts0 : PlayerThreadState := ⟨false, none⟩
  let w1 := cleanupOrphaned env.preSockAlive w0
  if !env.mpvFound then
    let t := PlayerThread.terminate ts0 w1 env.tf
    ⟨.error .engineNotFound, t.ts, t.w, t.tr, w1 :: t.hist⟩
  else if !env.spawnOk then
    let t := PlayerThread.terminate ts0 w1 env.tf
    ⟨.error .spawnFailed, t.ts, t.w, t.tr, w1 :: t.hist⟩
  else
    let p := env.newPid
    let w2 := { w1 with live := setAdd p w1.live }          -- Popen: engine running
    let w3 := { w2 with registry := setAdd p w2.registry }  -- lines 159-162, before connect
    let ts2 : PlayerThreadState := ⟨true, some p⟩           -- line 165: socket object created
    let loop := connectLoop (fun i => env.connects.getD i false) 0 5
    if loop.2 then
      let w4 := { w3 with sockFile := true }  -- a successful connect implies the file exists
      ⟨.ok (), ts2, w4, [Ev.spawn p, Ev.regAdd p] ++ loop.1, [w1, w2, w3, w4]⟩
    else
      -- lines 177-187: inline cleanup of the fresh process, then re-raise;
      -- SIGTERM (or the SIGKILL of the bare-except fallback) takes it down
      let wk := { w3 with live := w3.live.erase p }
      let trK := if env.inlineWaitOk
                 then [Ev.procTerminate p, Ev.procWaitTenths p 10]
                 else [Ev.procTerminate p, Ev.procWaitTenths p 10, Ev.procKill p]
      let t := PlayerThread.terminate ts2 wk env.tf
      ⟨.error .connectFailed, t.ts, t.w,
        [Ev.spawn p, Ev.regAdd p] ++ loop.1 ++ trK ++ t.tr,
        [w1, w2, w3, wk] ++ t.hist⟩

/-- Result of `Player.stop`. -/
structure StopOut where
  fc : Facade
  w : World
  tr : List Ev
  hist : List World
  deriving DecidableEq, Repr

/-- Shallow embedding of `Player.stop` (player.py lines 472-481): when a
playback thread exists, terminate it — exceptions are caught and logged
(line 477) — and the `finally` clause unconditionally clears `self.playback`
and `self.playing`; with no playback it does nothing at all. -/
def Player.stop (fc : Facade) (w : World) (tf : TermFaults) : StopOut :=
  match fc.playback with
  | none => ⟨fc, w, [], []⟩
  | some ts =>
      let t := PlayerThread.terminate ts w tf
      ⟨⟨false, none⟩, t.w, t.tr, t.hist⟩

/-- Result of `Player.start`.  `runOutcome` is the outcome inside the worker
thread (observable only in the log); `callerExc` is what `Player.start`
raises to its own caller. -/
structure StartOut where
  fc : Facade
  w : World
  runOutcome : Except StartErr Unit
  callerExc : Option StartErr
  tr : List Ev
  hist : List World
  deriving DecidableEq, Repr

/-- Shallow embedding of `Player.start` (player.py lines 461-470):
`self.stop()` first, then `self.playback = PlayerThread(url)` and
`self.playback.start()`, then `self.playing = True`.  `Thread.start` returns
immediately and an exception raised inside `PlayerThread.run` stays in the
daemon thread (it is logged, never delivered to the caller of `start`), so
`callerExc` is `none` and `playing` is set unconditionally; the worker's
body is modelled as running to completion here, its outcome recorded in
`runOutcome`. -/
def Player.start (fc : Facade) (w : World) (env : RunEnv) : StartOut :=
  let s := Player.stop fc w env.tf
  let r := PlayerThread.run env s.w
  ⟨⟨true, some r.ts⟩, r.w, r.outcome, none, s.tr ++ r.tr, s.hist ++ r.hist⟩

/-! ## Progress poller: `Interface._update_progress_loop` -/

/-- The shared progress snapshot (`_latest_time_pos`, `_latest_duration`,
`_latest_is_paused`, `_latest_progress`). -/
structure Snapshot where
  timePos : Option ℚ
  duration : Option ℚ
  isPaused : Option Bool
  progress : ℚ
  deriving DecidableEq, Repr

/-- Lines 151-154: `if duration and duration > 0 and time_pos is not None:`
— `duration` must be truthy (not None, not 0) and positive, and `time_pos`
must not be None; then `min(max((time_pos / duration) * 100, 0), 100)`,
otherwise 0. -/
def tickProgress (timePos duration : Option ℚ) : ℚ :=
  match duration with
  | none => 0
  | some d =>
      if d = 0 then 0
      else if d > 0 then
        match timePos with
        | some t => min (max (t / d * 100) 0) 100
        | none => 0
      else 0

/-- Shallow embedding of one iteration of `Interface._update_progress_loop`
(interface.py lines 144-166): with a player whose `playback` is set, store
the three queried values and the computed percentage; otherwise reset the
snapshot to `None/None/None/0`. -/
def updateProgressTick (player : Option Facade) (timePos duration : Option ℚ)
    (isPaused : Option Bool) : Snapshot :=
  match player with
  | some fc =>
      if fc.playback.isSome then
        ⟨timePos, duration, isPaused, tickProgress timePos duration⟩
      else ⟨none, none, none, 0⟩
  | none => ⟨none, none, none, 0⟩

/-! ## Event phases and model environments used by the claim statements -/

/-- Phase of a teardown event: socket close is 0, registry discard 1,
process-termination actions 2, socket-file unlink 3; events that `terminate`
never emits get 4. -/
def evClass : Ev → Nat
  | .sockShutdown => 0
  | .sockClose => 0
  | .regDiscard _ => 1
  | .killpgTerm _ => 2
  | .procTerminate _ => 2
  | .procWaitTenths _ _ => 2
  | .killpgKill _ => 2
  | .procKill _ => 2
  | .osKillById _ => 2
  | .unlinkSocket => 3
  | .regAdd _ => 4
  | .spawn _ => 4
  | .sleepTenths _ => 4
  | .connectAttempt _ => 4

/-- A process-termination action (signal, wait or kill). -/
def killEv (e : Ev) : Bool := evClass e == 2

/-- A registry discard. -/
def isRegDiscard : Ev → Bool
  | .regDiscard _ => true
  | _ => false

/-- Some registry discard occurs in the trace and a process-termination
action occurs after it. -/
def discardBeforeKill (tr : List Ev) : Bool :=
  (tr.dropWhile (fun e => !(isRegDiscard e))).any killEv

/-- The canonical shape of a retry-loop trace: `k` attempts from index `i`,
each preceded by one 0.5 s sleep. -/
def loopShape : Nat → Nat → List Ev
  | _, 0 => []
  | i, k + 1 => Ev.sleepTenths 5 :: Ev.connectAttempt i :: loopShape (i + 1) k

/-- An environment where mpv spawns but every connect attempt fails. -/
def allFailEnv : RunEnv :=
  ⟨"https://music.youtube.com/watch?v=x", false, true, true, 7, [], true,
   TermFaults.noFaults⟩

/-- An environment where mpv is absent from the PATH. -/
def noMpvEnv : RunEnv :=
  ⟨"https://music.youtube.com/watch?v=x", false, false, true, 7, [true], true,
   TermFaults.noFaults⟩

/-- A launch environment in which the engine spawns, the first connect
attempt succeeds, and teardown is fault-free: a valid target. -/
def happyEnv (url : String) (p : Nat) : RunEnv :=
  ⟨url, false, true, true, p, [true], true, TermFaults.noFaults⟩

/-! ## Channel lemmas -/

/-- `send_command` either degrades to `None` or hands back the received
bytes; in particular it never raises. -/
theorem send_cases (ts : PlayerThreadState) (w : World) (env : ChanEnv) :
    PlayerThread.send_command ts w env = .ok none ∨
    (env.sendExc = none ∧ PlayerThread.send_command ts w env = .ok (some env.resp)) := by
  unfold PlayerThread.send_command
  split
  · exact Or.inl rfl
  split
  · exact Or.inl rfl
  rcases h : env.sendExc with _ | e
  · exact Or.inr ⟨rfl, rfl⟩
  · by_cases he : e.isOSError <;> simp [he]

/-- `send_command` always returns (with some optional response). -/
theorem send_isOk (ts : PlayerThreadState) (w : World) (env : ChanEnv) :
    ∃ r, PlayerThread.send_command ts w env = .ok r := by
  rcases send_cases ts w env with h | ⟨_, h⟩
  · exact ⟨none, h⟩
  · exact ⟨some env.resp, h⟩

/-! ## Claim theorems -/

/-- C7: after `Player.play` or `Player.pause` with an active session, whenever
the post-action paused-state query answers a boolean `b`, the local `playing`
flag is set to `not b` — the flag comes from the fresh query, not from the
action that was sent. -/
theorem C7_resync_flag (fc : Facade) (w : World) (aEnv qEnv : ChanEnv)
    (ts : PlayerThreadState) (b : Bool)
    (hpb : fc.playback = some ts)
    (hq : PlayerThread.get_property ts w qEnv = .ok (some (JVal.jbool b))) :
    (Player.play fc w aEnv qEnv).playing = !b ∧
    (Player.pause fc w aEnv qEnv).playing = !b := by
  obtain ⟨r, hr⟩ := send_isOk ts w aEnv
  constructor
  · simp [Player.play, hpb, hr, hq, JVal.truthy]
  · simp [Player.pause, hpb, hr, hq, JVal.truthy]

/-- Witness for C7 at a concrete session and a concrete engine answer
`{"data": true}`. -/
theorem C7_witness :
    (Player.play ⟨false, some ⟨true, none⟩⟩ ⟨[], false, []⟩ ⟨none, RawResp.empty⟩
        ⟨none, RawResp.decoded (PyJson.obj [("data", JVal.jbool true)])⟩).playing = !true ∧
    (Player.pause ⟨false, some ⟨true, none⟩⟩ ⟨[], false, []⟩ ⟨none, RawResp.empty⟩
        ⟨none, RawResp.decoded (PyJson.obj [("data", JVal.jbool true)])⟩).playing = !true :=
  C7_resync_flag ⟨false, some ⟨true, none⟩⟩ ⟨[], false, []⟩ ⟨none, RawResp.empty⟩
    ⟨none, RawResp.decoded (PyJson.obj [("data", JVal.jbool true)])⟩
    ⟨true, none⟩ true rfl rfl

/-- C10: when the post-action paused-state query answers unknown (None),
`Player.play` falls back to `playing = True` and `Player.pause` to
`playing = False` — each assumes its own action succeeded only then. -/
theorem C10_unknown_fallback (fc : Facade) (w : World) (aEnv qEnv : ChanEnv)
    (ts : PlayerThreadState)
    (hpb : fc.playback = some ts)
    (hq : PlayerThread.get_property ts w qEnv = .ok none) :
    (Player.play fc w aEnv qEnv).playing = true ∧
    (Player.pause fc w aEnv qEnv).playing = false := by
  obtain ⟨r, hr⟩ := send_isOk ts w aEnv
  constructor
  · simp [Player.play, hpb, hr, hq]
  · simp [Player.pause, hpb, hr, hq]

/-- Witness for C10 at a concrete session whose query response is malformed
bytes (the query degrades to unknown). -/
theorem C10_witness :
    (Player.play ⟨false, some ⟨true, none⟩⟩ ⟨[], false, []⟩ ⟨none, RawResp.empty⟩
        ⟨none, RawResp.malformed⟩).playing = true ∧
    (Player.pause ⟨false, some ⟨true, none⟩⟩ ⟨[], false, []⟩ ⟨none, RawResp.empty⟩
        ⟨none, RawResp.malformed⟩).playing = false :=
  C10_unknown_fallback ⟨false, some ⟨true, none⟩⟩ ⟨[], false, []⟩ ⟨none, RawResp.empty⟩
    ⟨none, RawResp.malformed⟩ ⟨true, none⟩ rfl rfl

/-- C9: `Player.stop` always ends with the session reference cleared and the
playing flag false — under every fault injection into the teardown,
including ones that make `terminate` raise — and with no active session it
is a pure no-op. -/
theorem C9_stop_resets (fc : Facade) (w : World) (tf : TermFaults) :
    (∀ ts, fc.playback = some ts → (Player.stop fc w tf).fc = ⟨false, none⟩) ∧
    (fc.playback = none → Player.stop fc w tf = ⟨fc, w, [], []⟩) := by
  constructor
  · intro ts h
    simp [Player.stop, h]
  · intro h
    simp [Player.stop, h]

/-- Witness for C9: a stop with an active session (under a fault making the
socket shutdown raise a non-OSError, so `terminate` escapes) still resets
the facade; a stop with no session changes nothing. -/
theorem C9_witness :
    (Player.stop ⟨true, some ⟨true, some 7⟩⟩ ⟨[7], true, [7]⟩
      ⟨some PyExc.generic, false, none, none, false, none, false, none⟩).fc = ⟨false, none⟩ ∧
    Player.stop ⟨false, none⟩ ⟨[7], true, [7]⟩ TermFaults.noFaults =
      ⟨⟨false, none⟩, ⟨[7], true, [7]⟩, [], []⟩ :=
  ⟨(C9_stop_resets ⟨true, some ⟨true, some 7⟩⟩ ⟨[7], true, [7]⟩
      ⟨some PyExc.generic, false, none, none, false, none, false, none⟩).1 ⟨true, some 7⟩ rfl,
   (C9_stop_resets ⟨false, none⟩ ⟨[7], true, [7]⟩ TermFaults.noFaults).2 rfl⟩

/-- The percentage computed by the poller tick is never negative. -/
theorem tickProgress_nonneg (tp dur : Option ℚ) : 0 ≤ tickProgress tp dur := by
  unfold tickProgress
  rcases dur with _ | d
  · exact le_refl 0
  · by_cases h0 : d = 0
    · simp [h0]
    · by_cases hp : d > 0
      · rcases tp with _ | t
        · simp [h0, hp]
        · simp only [h0, hp, if_false, if_true]
          exact le_min (le_max_right _ 0) (by norm_num)
      · simp [h0, hp]

/-- The percentage computed by the poller tick never exceeds 100. -/
theorem tickProgress_le (tp dur : Option ℚ) : tickProgress tp dur ≤ 100 := by
  unfold tickProgress
  rcases dur with _ | d
  · norm_num
  · by_cases h0 : d = 0
    · simp [h0]
    · by_cases hp : d > 0
      · rcases tp with _ | t
        · simp [h0, hp]
        · simp only [h0, hp, if_false, if_true]
          exact min_le_right _ 100
      · simp [h0, hp]

/-- C8: for every position/duration pair read by the poller — duration 0,
duration absent and position past the duration included — the stored percent
lies in [0,100]; it equals `clamp(position/duration*100, 0, 100)` when the
duration is known and positive and the position is known, and is 0
otherwise; and with no active player or playback the snapshot is reset to
absent/absent/absent/0. -/
theorem C8_percent_clamped (player : Option Facade) (tp dur : Option ℚ) (isp : Option Bool) :
    (0 ≤ (updateProgressTick player tp dur isp).progress ∧
     (updateProgressTick player tp dur isp).progress ≤ 100) ∧
    (∀ fc d t, player = some fc → fc.playback.isSome = true → dur = some d → 0 < d →
      tp = some t →
      (updateProgressTick player tp dur isp).progress = min (max (t / d * 100) 0) 100) ∧
    ((∀ d, dur = some d → d ≤ 0) ∨ tp = none →
      (updateProgressTick player tp dur isp).progress = 0) ∧
    (∀ fc, player = some fc → fc.playback = none →
      updateProgressTick player tp dur isp = ⟨none, none, none, 0⟩) ∧
    (player = none → updateProgressTick player tp dur isp = ⟨none, none, none, 0⟩) := by
  refine ⟨?_, ?_, ?_, ?_, ?_⟩
  · rcases player with _ | fc
    · simp [updateProgressTick]
    · by_cases h : fc.playback.isSome
      · simpa [updateProgressTick, h] using
          ⟨tickProgress_nonneg tp dur, tickProgress_le tp dur⟩
      · simp [updateProgressTick, h]
  · rintro fc d t rfl hpb rfl hd rfl
    have h0 : d ≠ 0 := ne_of_gt hd
    simp [updateProgressTick, hpb, tickProgress, h0, hd]
  · intro h
    have hz : tickProgress tp dur = 0 := by
      rcases h with h | h
      · rcases dur with _ | d
        · simp [tickProgress]
        · have hd := h d rfl
          by_cases h0 : d = 0
          · simp [tickProgress, h0]
          · have : ¬ d > 0 := by
              intro hgt
              exact absurd hd (not_le.mpr hgt)
            simp [tickProgress, h0, this]
      · subst h
        rcases dur with _ | d
        · simp [tickProgress]
        · by_cases h0 : d = 0
          · simp [tickProgress, h0]
          · by_cases hp : d > 0 <;> simp [tickProgress, h0, hp]
    rcases player with _ | fc
    · simp [updateProgressTick]
    · by_cases hpb : fc.playback.isSome <;> simp [updateProgressTick, hpb, hz]
  · rintro fc rfl hpb
    simp [updateProgressTick, hpb]
  · rintro rfl
    simp [updateProgressTick]

/-- Witness for C8: position 150 s of a 100 s track clamps to 100; a player
with no playback resets the snapshot. -/
theorem C8_witness :
    (updateProgressTick (some ⟨true, some ⟨true, some 1⟩⟩) (some 150) (some 100)
        (some false)).progress = min (max ((150 : ℚ) / 100 * 100) 0) 100 ∧
    updateProgressTick (some ⟨false, none⟩) (some 150) (some 100) (some false) =
      ⟨none, none, none, 0⟩ :=
  ⟨(C8_percent_clamped (some ⟨true, some ⟨true, some 1⟩⟩) (some 150) (some 100)
      (some false)).2.1 ⟨true, some ⟨true, some 1⟩⟩ 100 150 rfl rfl rfl (by norm_num) rfl,
   (C8_percent_clamped (some ⟨false, none⟩) (some 150) (some 100)
      (some false)).2.2.2.1 ⟨false, none⟩ rfl rfl⟩

/-! ## Teardown ordering machinery (for C3) -/

/-- C3 counterexample: on a fully live session with no faults, `terminate`
discards the pid from the registry BEFORE sending any termination signal —
the trace is close, discard, SIGTERM, wait, unlink — so the claimed step
order (close channel, terminate process, then remove the id from the
registry, then unlink) does not hold on the code. -/
theorem C3_counterexample :
    (PlayerThread.terminate ⟨true, some 7⟩ ⟨[7], true, [7]⟩ TermFaults.noFaults).tr =
      [Ev.sockShutdown, Ev.sockClose, Ev.regDiscard 7, Ev.killpgTerm 7,
       Ev.procWaitTenths 7 20, Ev.unlinkSocket] ∧
    discardBeforeKill
      (PlayerThread.terminate ⟨true, some 7⟩ ⟨[7], true, [7]⟩ TermFaults.noFaults).tr =
      true := by
  decide

/-- A list of events of one phase is internally sorted. -/
theorem pairwise_of_const {l : List Ev} {c : Nat} (h : ∀ e ∈ l, evClass e = c) :
    l.Pairwise (fun a b => evClass a ≤ evClass b) := by
  induction l with
  | nil => exact List.Pairwise.nil
  | cons x xs ih =>
      refine List.Pairwise.cons ?_ (ih fun e he => h e (List.mem_cons_of_mem _ he))
      intro b hb
      rw [h x (List.mem_cons_self _ _), h b (List.mem_cons_of_mem _ hb)]

/-- Every event of the last-resort kill is a termination action. -/
theorem lastResortKill_class (p : Nat) (w : World) (f : TermFaults) :
    ∀ e ∈ (lastResortKill p w f).tr, evClass e = 2 := by
  intro e he
  unfold lastResortKill at he
  split at he <;> simp at he <;> subst he <;> rfl

/-- Every event of the outer exception handlers is a termination action. -/
theorem outerCatch_class (p : Nat) (w : World) (f : TermFaults) (x : PyExc) :
    ∀ e ∈ (outerCatch p w f x).tr, evClass e = 2 := by
  intro e he
  unfold outerCatch at he
  rcases x with _ | _ | _ | _ | _ | _ | _
  · simp at he
  all_goals exact lastResortKill_class p w f e he

/-- Every event of the SIGTERM phase is a termination action. -/
theorem sigTermPhase_class (p : Nat) (f : TermFaults) :
    ∀ e ∈ (sigTermPhase p f).1, evClass e = 2 := by
  intro e he
  unfold sigTermPhase at he
  split at he
  · simp at he; subst he; rfl
  · rcases hte : f.terminateExc with _ | x
    · rw [hte] at he; simp at he; subst he; rfl
    · rcases x <;> rw [hte] at he <;> simp at he <;> subst he <;> rfl

/-- Every event of the SIGKILL phase is a termination action. -/
theorem sigKillPhase_class (p : Nat) (w : World) (f : TermFaults) :
    ∀ e ∈ (sigKillPhase p w f).1.tr, evClass e = 2 := by
  intro e he
  unfold sigKillPhase at he
  split at he
  · simp at he; subst he; rfl
  · rcases hke : f.killExc with _ | x
    · rw [hke] at he; simp at he; subst he; rfl
    · rcases x <;> rw [hke] at he <;> simp at he <;> subst he <;> rfl

/-- Every event of the graceful-termination block is a termination action. -/
theorem gracefulTerm_class (p : Nat) (w : World) (f : TermFaults) :
    ∀ e ∈ (gracefulTerm p w f).tr, evClass e = 2 := by
  intro e he
  unfold gracefulTerm at he
  rcases hst : sigTermPhase p f with ⟨trT, _ | x⟩
  · rw [hst] at he
    simp only at he
    rcases hw : f.waitExc with _ | y
    · rw [hw] at he
      simp only [List.mem_append, List.mem_singleton] at he
      rcases he with he | he
      · exact sigTermPhase_class p f e (by rw [hst]; exact he)
      · subst he; rfl
    · rcases y with _ | _ | _ | _ | _ | _ | _ <;> rw [hw] at he <;> simp only at he
      case processLookup =>
        simp only [List.mem_append, List.mem_singleton] at he
        rcases he with he | he
        · exact sigTermPhase_class p f e (by rw [hst]; exact he)
        · subst he; rfl
      case timeoutExpired =>
        rcases hsk : sigKillPhase p w f with ⟨rK, _ | z⟩ <;> rw [hsk] at he <;>
          simp only [List.mem_append, List.mem_singleton] at he
        · rcases he with (he | he) | he
          · exact sigTermPhase_class p f e (by rw [hst]; exact he)
          · subst he; rfl
          · exact sigKillPhase_class p w f e (by rw [hsk]; exact he)
        · rcases he with ((he | he) | he) | he
          · exact sigTermPhase_class p f e (by rw [hst]; exact he)
          · subst he; rfl
          · exact sigKillPhase_class p w f e (by rw [hsk]; exact he)
          · exact outerCatch_class p rK.w f z e he
      all_goals
        simp only [List.mem_append, List.mem_singleton] at he
        rcases he with (he | he) | he
        · exact sigTermPhase_class p f e (by rw [hst]; exact he)
        · subst he; rfl
        · exact outerCatch_class p w f _ e he
  · rw [hst] at he
    simp only [List.mem_append] at he
    rcases he with he | he
    · exact sigTermPhase_class p f e (by rw [hst]; exact he)
    · exact outerCatch_class p w f x e he

/-- With faults inside the CPython envelope, the socket-close step never
escapes, clears `self.sock`, and emits the two socket events exactly when a
socket was present. -/
theorem closeSocket_ok (ts : PlayerThreadState) (f : TermFaults)
    (h : f.envelope = true) :
    closeSocketStep ts f =
      (⟨false, ts.process⟩, (if ts.sock then [Ev.sockShutdown, Ev.sockClose] else []),
       (none : Option PyExc)) := by
  rcases ts with ⟨s, pr⟩
  cases s
  · simp [closeSocketStep]
  · rcases hse : f.shutdownExc with _ | e
    · simp [closeSocketStep, hse]
    · have he : e.isOSError = true := by
        unfold TermFaults.envelope at h
        rw [hse] at h
        simp [Option.all, Bool.and_eq_true] at h
        exact h.1
      simp [closeSocketStep, hse, he]

/-- With faults inside the CPython envelope, the unlink step never escapes,
attempts the unlink exactly when the file exists, and touches nothing but
the file; a fault-free unlink leaves the file absent. -/
theorem unlinkStep_ok (w : World) (f : TermFaults) (h : f.envelope = true) :
    (unlinkStep w f).2.2 = none ∧
    (unlinkStep w f).2.1 = (if w.sockFile then [Ev.unlinkSocket] else []) ∧
    (unlinkStep w f).1.registry = w.registry ∧
    (unlinkStep w f).1.live = w.live ∧
    (f.unlinkExc = none → (unlinkStep w f).1.sockFile = false) := by
  rcases hw : w.sockFile
  · rcases hu : f.unlinkExc with _ | e <;> simp [unlinkStep, hw, hu]
  · rcases hu : f.unlinkExc with _ | e
    · simp [unlinkStep, hw, hu]
    · have he : e.isOSError = true := by
        unfold TermFaults.envelope at h
        rw [hu] at h
        simp [Option.all, Bool.and_eq_true] at h
        exact h.2
      simp [unlinkStep, hw, hu, he]

/-- The last-resort kill only touches `live`. -/
theorem lastResortKill_w (p : Nat) (w : World) (f : TermFaults) :
    (lastResortKill p w f).w.registry = w.registry ∧
    (lastResortKill p w f).w.sockFile = w.sockFile := by
  unfold lastResortKill
  split <;> simp

/-- The outer handlers only touch `live`. -/
theorem outerCatch_w (p : Nat) (w : World) (f : TermFaults) (x : PyExc) :
    (outerCatch p w f x).w.registry = w.registry ∧
    (outerCatch p w f x).w.sockFile = w.sockFile := by
  rcases x
  case processLookup => simp [outerCatch]
  all_goals exact lastResortKill_w p w f

/-- The SIGKILL phase only touches `live`. -/
theorem sigKillPhase_w (p : Nat) (w : World) (f : TermFaults) :
    (sigKillPhase p w f).1.w.registry = w.registry ∧
    (sigKillPhase p w f).1.w.sockFile = w.sockFile := by
  unfold sigKillPhase
  split
  · simp
  · rcases hke : f.killExc with _ | x
    · simp
    · rcases x <;> simp

/-- The graceful-termination block only touches `live`: the registry and the
socket file are exactly as before. -/
theorem gracefulTerm_w (p : Nat) (w : World) (f : TermFaults) :
    (gracefulTerm p w f).w.registry = w.registry ∧
    (gracefulTerm p w f).w.sockFile = w.sockFile := by
  unfold gracefulTerm
  rcases hst : sigTermPhase p f with ⟨trT, _ | x⟩
  · rcases hwe : f.waitExc with _ | y
    · simp
    · rcases y
      case processLookup => simp
      case timeoutExpired =>
        rcases hsk : sigKillPhase p w f with ⟨rK, _ | z⟩
        · have h1 := sigKillPhase_w p w f
          rw [hsk] at h1
          simpa using h1
        · have h1 := sigKillPhase_w p w f
          rw [hsk] at h1
          simp only at h1
          have h2 := outerCatch_w p rK.w f z
          refine ⟨?_, ?_⟩
          · simpa using h2.1.trans h1.1
          · simpa using h2.2.trans h1.2
      all_goals exact outerCatch_w p w f _
  · exact outerCatch_w p w f x

/-- The process step: the trace it emits. -/
theorem procStep_tr (ts : PlayerThreadState) (w : World) (f : TermFaults) :
    (ts.process = none → (procStep ts w f).tr = []) ∧
    (∀ p, ts.process = some p →
      (procStep ts w f).tr = Ev.regDiscard p ::
        (if p ∈ w.live then (gracefulTerm p { w with registry := w.registry.erase p } f).tr
         else [])) := by
  rcases ts with ⟨s, _ | p⟩
  · simp [procStep]
  · refine ⟨by simp, ?_⟩
    rintro q hq
    simp only [Option.some.injEq] at hq
    subst hq
    by_cases hl : p ∈ w.live <;> simp [procStep, hl]

/-- The process step only touches the registry (erasing the pid) and `live`. -/
theorem procStep_w (ts : PlayerThreadState) (w : World) (f : TermFaults) :
    (procStep ts w f).w.sockFile = w.sockFile ∧
    (procStep ts w f).w.registry =
      (match ts.process with
       | some p => w.registry.erase p
       | none => w.registry) := by
  rcases ts with ⟨s, _ | p⟩
  · simp [procStep]
  · by_cases hl : p ∈ w.live
    · have hg := gracefulTerm_w p { w with registry := w.registry.erase p } f
      simp [procStep, hl, hg.1, hg.2]
    · simp [procStep, hl]

/-- Every event of the process step sits in phases 1-2. -/
theorem procStep_class (ts : PlayerThreadState) (w : World) (f : TermFaults) :
    ∀ e ∈ (procStep ts w f).tr, 1 ≤ evClass e ∧ evClass e ≤ 2 := by
  intro e he
  rcases hp : ts.process with _ | p
  · rw [(procStep_tr ts w f).1 hp] at he
    simp at he
  · rw [(procStep_tr ts w f).2 p hp] at he
    simp only [List.mem_cons] at he
    rcases he with rfl | he
    · exact ⟨le_refl 1, by norm_num [evClass]⟩
    · split at he
      · have h2 := gracefulTerm_class p { w with registry := w.registry.erase p } f e he
        rw [h2]
        exact ⟨by norm_num, le_refl 2⟩
      · simp at he

/-- The process step's trace is internally sorted by phase. -/
theorem procStep_pairwise (ts : PlayerThreadState) (w : World) (f : TermFaults) :
    (procStep ts w f).tr.Pairwise (fun a b => evClass a ≤ evClass b) := by
  rcases hp : ts.process with _ | p
  · rw [(procStep_tr ts w f).1 hp]
    exact List.Pairwise.nil
  · rw [(procStep_tr ts w f).2 p hp]
    split
    · refine List.Pairwise.cons ?_
        (pairwise_of_const (gracefulTerm_class p { w with registry := w.registry.erase p } f))
      intro b hb
      rw [gracefulTerm_class p { w with registry := w.registry.erase p } f b hb]
      norm_num [evClass]
    · exact List.pairwise_singleton _ _

/-- Decomposition of `terminate` under envelope faults: thread fields
cleared, world and events assembled from the three steps in order. -/
theorem terminate_decomp (ts : PlayerThreadState) (w : World) (f : TermFaults)
    (henv : f.envelope = true) :
    PlayerThread.terminate ts w f =
      ⟨⟨false, none⟩,
       (unlinkStep (procStep ts w f).w f).1,
       (if ts.sock then [Ev.sockShutdown, Ev.sockClose] else []) ++
         (procStep ts w f).tr ++ (unlinkStep (procStep ts w f).w f).2.1,
       (procStep ts w f).hist ++ [(unlinkStep (procStep ts w f).w f).1],
       (unlinkStep (procStep ts w f).w f).2.2⟩ := by
  unfold PlayerThread.terminate
  rw [closeSocket_ok ts f henv]
  simp only
  rw [show procStep { sock := false, process := ts.process } w f = procStep ts w f from rfl]

/-- Assembling a phase-0 prefix, a sorted middle of phases ≤ 2 and a phase-3
suffix gives a phase-sorted trace. -/
theorem pairwise_three {A B C : List Ev}
    (hA : ∀ e ∈ A, evClass e = 0)
    (hB : B.Pairwise (fun a b => evClass a ≤ evClass b))
    (hBle : ∀ e ∈ B, evClass e ≤ 2)
    (hC : ∀ e ∈ C, evClass e = 3) :
    (A ++ B ++ C).Pairwise (fun a b => evClass a ≤ evClass b) := by
  have hAB : (A ++ B).Pairwise (fun a b => evClass a ≤ evClass b) := by
    rw [List.pairwise_append]
    exact ⟨pairwise_of_const hA, hB,
      fun a ha b _ => by rw [hA a ha]; exact Nat.zero_le _⟩
  rw [List.pairwise_append]
  refine ⟨hAB, pairwise_of_const hC, ?_⟩
  intro a ha b hb
  rw [hC b hb]
  rcases List.mem_append.mp ha with ha | ha
  · rw [hA a ha]
    norm_num
  · exact le_trans (hBle a ha) (by norm_num)

/-- A terminated (or never-started) thread with the socket file gone:
`terminate` is a complete no-op. -/
theorem terminate_idle (w : World) (f' : TermFaults) (hw : w.sockFile = false) :
    PlayerThread.terminate ⟨false, none⟩ w f' = ⟨⟨false, none⟩, w, [], [w], none⟩ := by
  unfold PlayerThread.terminate closeSocketStep procStep unlinkStep
  simp [hw]

/-- C3 (amended): session teardown is idempotent and never throws (for the
exception classes CPython can raise at each call site), and its steps run in
the order: close channel, REMOVE THE PROCESS ID FROM THE REGISTRY, terminate
the process (process group preferred, escalating SIGTERM → wait(2 s) →
SIGKILL → last-resort kill-by-pid), unlink the control-socket file; each
top-level step runs regardless of faults in the others. -/
theorem C3_teardown_amended (ts : PlayerThreadState) (w : World) (f : TermFaults)
    (henv : f.envelope = true) :
    (PlayerThread.terminate ts w f).escaped = none ∧
    (PlayerThread.terminate ts w f).tr.Pairwise (fun a b => evClass a ≤ evClass b) ∧
    (ts.sock = true → Ev.sockShutdown ∈ (PlayerThread.terminate ts w f).tr ∧
      Ev.sockClose ∈ (PlayerThread.terminate ts w f).tr) ∧
    (∀ p, ts.process = some p → Ev.regDiscard p ∈ (PlayerThread.terminate ts w f).tr ∧
      (PlayerThread.terminate ts w f).w.registry = w.registry.erase p) ∧
    (w.sockFile = true → Ev.unlinkSocket ∈ (PlayerThread.terminate ts w f).tr) ∧
    (PlayerThread.terminate ts w f).ts = ⟨false, none⟩ ∧
    (f = TermFaults.noFaults → ts.sock = true → ∀ p, ts.process = some p → p ∈ w.live →
      w.sockFile = true →
      (PlayerThread.terminate ts w f).tr =
        [Ev.sockShutdown, Ev.sockClose, Ev.regDiscard p, Ev.killpgTerm p,
         Ev.procWaitTenths p 20, Ev.unlinkSocket]) ∧
    (f = { TermFaults.noFaults with waitExc := some PyExc.timeoutExpired } →
      ts.sock = true → ∀ p, ts.process = some p → p ∈ w.live → w.sockFile = true →
      (PlayerThread.terminate ts w f).tr =
        [Ev.sockShutdown, Ev.sockClose, Ev.regDiscard p, Ev.killpgTerm p,
         Ev.procWaitTenths p 20, Ev.killpgKill p, Ev.unlinkSocket]) ∧
    (f = TermFaults.noFaults → ∀ f' : TermFaults,
      PlayerThread.terminate (PlayerThread.terminate ts w f).ts
          (PlayerThread.terminate ts w f).w f' =
        ⟨(PlayerThread.terminate ts w f).ts, (PlayerThread.terminate ts w f).w, [],
          [(PlayerThread.terminate ts w f).w], none⟩) := by
  have hd := terminate_decomp ts w f henv
  have hu := unlinkStep_ok (procStep ts w f).w f henv
  have hpw := procStep_w ts w f
  have hA : ∀ e ∈ (if ts.sock = true then [Ev.sockShutdown, Ev.sockClose] else ([] : List Ev)),
      evClass e = 0 := by
    intro e he
    split at he
    · fin_cases he <;> rfl
    · simp at he
  have hC : ∀ e ∈ (unlinkStep (procStep ts w f).w f).2.1, evClass e = 3 := by
    intro e he
    rw [hu.2.1] at he
    split at he
    · fin_cases he
      rfl
    · simp at he
  refine ⟨?_, ?_, ?_, ?_, ?_, ?_, ?_, ?_, ?_⟩
  · rw [hd]
    exact hu.1
  · rw [hd]
    exact pairwise_three hA (procStep_pairwise ts w f)
      (fun e he => (procStep_class ts w f e he).2) hC
  · intro hs
    rw [hd]
    refine ⟨?_, ?_⟩ <;> simp [hs]
  · intro p hp
    constructor
    · rw [hd]
      rw [(procStep_tr ts w f).2 p hp]
      simp
    · rw [hd]
      show (unlinkStep (procStep ts w f).w f).1.registry = w.registry.erase p
      rw [hu.2.2.1, hpw.2, hp]
  · intro hsf
    rw [hd]
    have : (procStep ts w f).w.sockFile = true := by rw [hpw.1, hsf]
    simp [hu.2.1, this]
  · rw [hd]
  · rintro rfl hs p hp hl hsf
    rcases ts with ⟨s, pr⟩
    simp only at hs hp
    subst hs
    subst hp
    simp [PlayerThread.terminate, closeSocketStep, procStep, gracefulTerm, sigTermPhase,
      unlinkStep, TermFaults.noFaults, hl, hsf]
  · rintro rfl hs p hp hl hsf
    rcases ts with ⟨s, pr⟩
    simp only at hs hp
    subst hs
    subst hp
    simp [PlayerThread.terminate, closeSocketStep, procStep, gracefulTerm, sigTermPhase,
      sigKillPhase, unlinkStep, TermFaults.noFaults, hl, hsf]
  · rintro rfl f'
    have h4 : (PlayerThread.terminate ts w TermFaults.noFaults).ts = ⟨false, none⟩ := by
      rw [hd]
    have hsf : (PlayerThread.terminate ts w TermFaults.noFaults).w.sockFile = false := by
      rw [hd]
      show (unlinkStep (procStep ts w TermFaults.noFaults).w TermFaults.noFaults).1.sockFile
        = false
      exact hu.2.2.2.2 rfl
    rw [h4, terminate_idle _ f' hsf]

/-- Witness for C3 at a fully live session with no faults: the teardown
does not escape, erases the pid, and runs close, discard, SIGTERM,
wait(2 s), unlink. -/
theorem C3_witness :
    (PlayerThread.terminate ⟨true, some 7⟩ ⟨[7], true, [7]⟩ TermFaults.noFaults).escaped =
      none ∧
    (PlayerThread.terminate ⟨true, some 7⟩ ⟨[7], true, [7]⟩ TermFaults.noFaults).tr =
      [Ev.sockShutdown, Ev.sockClose, Ev.regDiscard 7, Ev.killpgTerm 7,
       Ev.procWaitTenths 7 20, Ev.unlinkSocket] ∧
    (PlayerThread.terminate ⟨true, some 7⟩ ⟨[7], true, [7]⟩ TermFaults.noFaults).w.registry =
      ([7] : List Nat).erase 7 :=
  ⟨(C3_teardown_amended ⟨true, some 7⟩ ⟨[7], true, [7]⟩ TermFaults.noFaults rfl).1,
   (C3_teardown_amended ⟨true, some 7⟩ ⟨[7], true, [7]⟩ TermFaults.noFaults
      rfl).2.2.2.2.2.2.1 rfl rfl 7 rfl (by decide) rfl,
   ((C3_teardown_amended ⟨true, some 7⟩ ⟨[7], true, [7]⟩ TermFaults.noFaults
      rfl).2.2.2.1 7 rfl).2⟩

/-- C6 counterexample: a response that is well-formed JSON but not an object
— the bytes `5` — makes the query RAISE instead of returning unknown: the
`"data" in data` test (player.py line 320) throws a TypeError, which is not
among the classes caught at line 322 (`JSONDecodeError, KeyError,
UnicodeDecodeError`), so it propagates to the caller.  This response has no
`data` field, so the claim's "a response missing the `data` field makes the
query return unknown — no channel I/O or parse error ever raises" fails. -/
theorem C6_counterexample :
    PlayerThread.get_property ⟨true, none⟩ ⟨[], false, []⟩
      ⟨none, RawResp.decoded (PyJson.scalar (JVal.jnum 5))⟩ =
      .error PyExc.typeError := rfl

/-- C6 (amended): `send_command` never raises and returns None on any
channel error (socket error, absent socket, dead process); `get_property`
returns unknown for empty, non-decodable, and object-without-`data`
responses — but a well-formed JSON response whose top level is not an
object can raise an uncaught TypeError. -/
theorem C6_channel_amended (ts : PlayerThreadState) (w : World) (env : ChanEnv) :
    (∃ r, PlayerThread.send_command ts w env = .ok r) ∧
    (env.sendExc.isSome = true → PlayerThread.send_command ts w env = .ok none) ∧
    (ts.sock = false → PlayerThread.send_command ts w env = .ok none) ∧
    (∀ p, ts.process = some p → p ∉ w.live → PlayerThread.send_command ts w env = .ok none) ∧
    (env.resp = RawResp.empty → PlayerThread.get_property ts w env = .ok none) ∧
    (env.resp = RawResp.malformed → PlayerThread.get_property ts w env = .ok none) ∧
    (∀ fields, env.resp = RawResp.decoded (PyJson.obj fields) →
      (∃ v, PlayerThread.get_property ts w env = .ok v) ∧
      (fields.lookup "data" = none → PlayerThread.get_property ts w env = .ok none)) := by
  refine ⟨send_isOk ts w env, ?_, ?_, ?_, ?_, ?_, ?_⟩
  · intro h
    unfold PlayerThread.send_command
    split
    · rfl
    split
    · rfl
    rcases he : env.sendExc with _ | e
    · rw [he] at h; simp at h
    · by_cases hos : e.isOSError <;> simp [hos]
  · intro h
    unfold PlayerThread.send_command
    simp [h]
  · intro p hp hl
    unfold PlayerThread.send_command
    split
    · rfl
    split
    · rfl
    · rename_i hcond
      rw [hp] at hcond
      simp [hl] at hcond
  · intro h
    unfold PlayerThread.get_property
    rcases send_cases ts w env with hs | ⟨_, hs⟩ <;> rw [hs] <;> simp [h]
  · intro h
    unfold PlayerThread.get_property
    rcases send_cases ts w env with hs | ⟨_, hs⟩ <;> rw [hs] <;> simp [h]
  · intro fields hresp
    rcases send_cases ts w env with hs | ⟨_, hs⟩
    · refine ⟨⟨none, ?_⟩, fun _ => ?_⟩ <;> unfold PlayerThread.get_property <;> rw [hs]
    · have hg : PlayerThread.get_property ts w env =
          .ok (match fields.lookup "data" with
               | some JVal.jnull => none
               | some v => some v
               | none => none) := by
        unfold PlayerThread.get_property
        rw [hs, hresp]
        rcases hl : fields.lookup "data" with _ | v
        · simp [pyContainsData, pySubscriptData, hl]
        · rcases v <;> simp [pyContainsData, pySubscriptData, hl]
      refine ⟨⟨_, hg⟩, ?_⟩
      intro hl
      rw [hg, hl]

/-- Witness for C6: a socket error degrades the send to None; a malformed
response and an object response without a `data` field both make the query
return unknown. -/
theorem C6_witness :
    PlayerThread.send_command ⟨true, none⟩ ⟨[], false, []⟩
      ⟨some PyExc.osErr, RawResp.empty⟩ = .ok none ∧
    PlayerThread.get_property ⟨true, none⟩ ⟨[], false, []⟩ ⟨none, RawResp.malformed⟩ =
      .ok none ∧
    PlayerThread.get_property ⟨true, none⟩ ⟨[], false, []⟩
      ⟨none, RawResp.decoded (PyJson.obj [("x", JVal.jbool true)])⟩ = .ok none :=
  ⟨(C6_channel_amended ⟨true, none⟩ ⟨[], false, []⟩ ⟨some PyExc.osErr, RawResp.empty⟩).2.1 rfl,
   (C6_channel_amended ⟨true, none⟩ ⟨[], false, []⟩ ⟨none, RawResp.malformed⟩).2.2.2.2.2.1 rfl,
   ((C6_channel_amended ⟨true, none⟩ ⟨[], false, []⟩
      ⟨none, RawResp.decoded (PyJson.obj [("x", JVal.jbool true)])⟩).2.2.2.2.2.2
      [("x", JVal.jbool true)] rfl).2 rfl⟩

/-! ## Connect-loop lemmas (for C4) -/

/-- The loop never makes more attempts than its budget. -/
theorem attemptsUsed_le (conn : Nat → Bool) (i fuel : Nat) :
    attemptsUsed conn i fuel ≤ fuel := by
  induction fuel generalizing i with
  | zero => exact le_refl 0
  | succ n ih =>
      unfold attemptsUsed
      split
      · omega
      · have := ih (i + 1)
        omega

/-- With a positive budget the loop makes at least one attempt. -/
theorem attemptsUsed_pos (conn : Nat → Bool) (i n : Nat) :
    1 ≤ attemptsUsed conn i (n + 1) := by
  unfold attemptsUsed
  split <;> omega

/-- The retry-loop trace is exactly `attemptsUsed` sleep-then-attempt
pairs. -/
theorem connectLoop_tr (conn : Nat → Bool) (i fuel : Nat) :
    (connectLoop conn i fuel).1 = loopShape i (attemptsUsed conn i fuel) := by
  induction fuel generalizing i with
  | zero => rfl
  | succ n ih =>
      unfold connectLoop attemptsUsed
      by_cases h : conn i <;> simp [h, loopShape, ih]

/-- When every attempt in the window fails, the loop fails after using the
whole budget. -/
theorem connectLoop_allFail (conn : Nat → Bool) (i fuel : Nat)
    (h : ∀ j, j < fuel → conn (i + j) = false) :
    (connectLoop conn i fuel).2 = false ∧ attemptsUsed conn i fuel = fuel := by
  induction fuel generalizing i with
  | zero => exact ⟨rfl, rfl⟩
  | succ n ih =>
      have h0 : conn i = false := by simpa using h 0 (Nat.succ_pos n)
      have hr : ∀ j, j < n → conn (i + 1 + j) = false := by
        intro j hj
        have hx := h (j + 1) (by omega)
        rwa [show i + (j + 1) = i + 1 + j by omega] at hx
      unfold connectLoop attemptsUsed
      simp [h0, (ih (i + 1) hr).1, (ih (i + 1) hr).2]

/-- Every event of a teardown is in phases 0-3 (in particular, a teardown
emits no sleeps and no connect attempts). -/
theorem terminate_tr_class (ts : PlayerThreadState) (w : World) (f : TermFaults)
    (henv : f.envelope = true) :
    ∀ e ∈ (PlayerThread.terminate ts w f).tr, evClass e ≤ 3 := by
  intro e he
  rw [terminate_decomp ts w f henv] at he
  simp only [List.mem_append] at he
  rcases he with (he | he) | he
  · split at he
    · fin_cases he <;> norm_num [evClass]
    · simp at he
  · exact le_trans (procStep_class ts w f e he).2 (by norm_num)
  · rw [(unlinkStep_ok (procStep ts w f).w f henv).2.1] at he
    split at he
    · fin_cases he
      norm_num [evClass]
    · simp at he

/-- The pre-start stale-socket cleanup touches only the socket file. -/
theorem cleanupOrphaned_fields (pre : Bool) (w : World) :
    (cleanupOrphaned pre w).live = w.live ∧ (cleanupOrphaned pre w).registry = w.registry := by
  unfold cleanupOrphaned
  split <;> simp

/-- Adding a fresh pid and erasing it again is the identity. -/
theorem erase_setAdd (p : Nat) (l : List Nat) (h : p ∉ l) : (setAdd p l).erase p = l := by
  unfold setAdd
  rw [if_neg h, List.erase_append_right _ h, List.erase_cons_head, List.append_nil]

/-- When the pid is not live, the process step leaves `live` untouched. -/
theorem procStep_live_notmem (p : Nat) (wk : World) (f : TermFaults) (s : Bool)
    (h : p ∉ wk.live) :
    (procStep ⟨s, some p⟩ wk f).w.live = wk.live := by
  simp [procStep, h]

/-- C4 counterexample: when all 5 attempts fail, the inline cleanup of the
just-spawned process waits 1 second (player.py line 183: `wait(timeout=1)`),
not the 2 seconds the claim states — the run's trace contains a 1 s wait on
the fresh pid and no 2 s wait at all — before failing with ConnectFailed. -/
theorem C4_counterexample :
    (PlayerThread.run allFailEnv ⟨[], false, []⟩).outcome = .error .connectFailed ∧
    Ev.procWaitTenths 7 10 ∈ (PlayerThread.run allFailEnv ⟨[], false, []⟩).tr ∧
    Ev.procWaitTenths 7 20 ∉ (PlayerThread.run allFailEnv ⟨[], false, []⟩).tr := by
  decide

/-- C4 (amended): the connect loop makes between 1 and 5 attempts, its trace
is exactly one fixed 0.5 s sleep before each attempt (and nothing after the
loop ever sleeps or reconnects); when all 5 attempts fail, the run uses the
whole budget, terminates the just-spawned engine (graceful terminate, then a
1-SECOND wait, then force-kill on wait failure) and the worker fails with
ConnectFailed, with the fresh process no longer live. -/
theorem C4_retry_amended (env : RunEnv) (w : World)
    (hm : env.mpvFound = true) (hs : env.spawnOk = true)
    (henv : env.tf.envelope = true) :
    1 ≤ attemptsUsed (fun i => env.connects.getD i false) 0 5 ∧
    attemptsUsed (fun i => env.connects.getD i false) 0 5 ≤ 5 ∧
    (∃ tail, (PlayerThread.run env w).tr =
        [Ev.spawn env.newPid, Ev.regAdd env.newPid] ++
          loopShape 0 (attemptsUsed (fun i => env.connects.getD i false) 0 5) ++ tail ∧
        ∀ e ∈ tail, evClass e ≤ 3) ∧
    ((∀ j, j < 5 → env.connects.getD j false = false) →
      (PlayerThread.run env w).outcome = .error .connectFailed ∧
      attemptsUsed (fun i => env.connects.getD i false) 0 5 = 5 ∧
      Ev.procTerminate env.newPid ∈ (PlayerThread.run env w).tr ∧
      Ev.procWaitTenths env.newPid 10 ∈ (PlayerThread.run env w).tr ∧
      (env.inlineWaitOk = false → Ev.procKill env.newPid ∈ (PlayerThread.run env w).tr) ∧
      (env.newPid ∉ w.live → env.newPid ∉ (PlayerThread.run env w).w.live)) := by
  refine ⟨attemptsUsed_pos _ 0 4, attemptsUsed_le _ 0 5, ?_, ?_⟩
  · unfold PlayerThread.run
    simp only [hm, hs, Bool.not_true, Bool.false_eq_true, if_false]
    by_cases hok : (connectLoop (fun i => env.connects.getD i false) 0 5).2 = true
    · refine ⟨[], ?_, by simp⟩
      rw [if_pos hok]
      simp [connectLoop_tr]
    · rw [if_neg hok]
      refine ⟨(if env.inlineWaitOk
               then [Ev.procTerminate env.newPid, Ev.procWaitTenths env.newPid 10]
               else [Ev.procTerminate env.newPid, Ev.procWaitTenths env.newPid 10,
                     Ev.procKill env.newPid]) ++
              (PlayerThread.terminate ⟨true, some env.newPid⟩
                { cleanupOrphaned env.preSockAlive w with
                    live := (setAdd env.newPid (cleanupOrphaned env.preSockAlive w).live).erase
                      env.newPid,
                    registry := setAdd env.newPid
                      (cleanupOrphaned env.preSockAlive w).registry } env.tf).tr, ?_, ?_⟩
      · simp [connectLoop_tr, List.append_assoc]
      · intro e he
        rcases List.mem_append.mp he with he | he
        · split at he <;> fin_cases he <;> norm_num [evClass]
        · exact terminate_tr_class _ _ _ henv e he
  · intro hfail
    have hlf := connectLoop_allFail (fun i => env.connects.getD i false) 0 5
      (by simpa using hfail)
    unfold PlayerThread.run
    simp only [hm, hs, Bool.not_true, Bool.false_eq_true, if_false, hlf.1]
    refine ⟨by simp, hlf.2, by split <;> simp, by split <;> simp, ?_, ?_⟩
    · intro hw
      simp [hw]
    · intro hfresh
      have hfresh1 : env.newPid ∉ (cleanupOrphaned env.preSockAlive w).live := by
        rw [(cleanupOrphaned_fields env.preSockAlive w).1]
        exact hfresh
      have hkill : (setAdd env.newPid (cleanupOrphaned env.preSockAlive w).live).erase
          env.newPid = (cleanupOrphaned env.preSockAlive w).live :=
        erase_setAdd _ _ hfresh1
      rw [terminate_decomp _ _ _ henv]
      show env.newPid ∉ (unlinkStep _ env.tf).1.live
      rw [(unlinkStep_ok _ env.tf henv).2.2.2.1]
      rw [procStep_live_notmem env.newPid _ env.tf true (by rw [hkill]; exact hfresh1)]
      simp only [hkill]
      exact hfresh1


/-- Witness for C4: in the all-fail environment the loop uses its whole
budget of 5 attempts, the worker fails with ConnectFailed and the inline
cleanup's terminate ran. -/
theorem C4_witness :
    attemptsUsed (fun i => allFailEnv.connects.getD i false) 0 5 = 5 ∧
    (PlayerThread.run allFailEnv ⟨[], false, []⟩).outcome = .error .connectFailed ∧
    Ev.procTerminate 7 ∈ (PlayerThread.run allFailEnv ⟨[], false, []⟩).tr :=
  ⟨((C4_retry_amended allFailEnv ⟨[], false, []⟩ rfl rfl rfl).2.2.2 (by decide)).2.1,
   ((C4_retry_amended allFailEnv ⟨[], false, []⟩ rfl rfl rfl).2.2.2 (by decide)).1,
   ((C4_retry_amended allFailEnv ⟨[], false, []⟩ rfl rfl rfl).2.2.2 (by decide)).2.2.1⟩

/-! ## Registry lemmas (for C1, C2, C5) -/

/-- Membership after a Python-set add. -/
theorem mem_setAdd (x y : Nat) (l : List Nat) (h : x ∈ setAdd y l) : x ∈ l ∨ x = y := by
  unfold setAdd at h
  split at h
  · exact Or.inl h
  · rcases List.mem_append.mp h with h | h
    · exact Or.inl h
    · simp at h
      exact Or.inr h

/-- The unlink step never changes the registry or the live set, under any
fault. -/
theorem unlinkStep_registry (w : World) (f : TermFaults) :
    (unlinkStep w f).1.registry = w.registry ∧ (unlinkStep w f).1.live = w.live := by
  unfold unlinkStep
  rcases hu : f.unlinkExc with _ | e
  · split <;> simp
  · split
    · by_cases he : e.isOSError <;> simp [he]
    · simp

/-- A teardown never adds anything to the registry, under any fault. -/
theorem terminate_registry_sub (ts : PlayerThreadState) (w : World) (f : TermFaults) (x : Nat)
    (hx : x ∈ (PlayerThread.terminate ts w f).w.registry) : x ∈ w.registry := by
  unfold PlayerThread.terminate at hx
  rcases hc : closeSocketStep ts f with ⟨ts1, tr1, esc⟩
  rw [hc] at hx
  rcases esc with _ | e
  · simp only at hx
    have hreg := (unlinkStep_registry (procStep ts1 w f).w f).1
    rcases hu : unlinkStep (procStep ts1 w f).w f with ⟨w3, tr3, esc2⟩
    rw [hu] at hx hreg
    simp only at hx hreg
    rw [hreg] at hx
    rw [(procStep_w ts1 w f).2] at hx
    rcases hp : ts1.process with _ | p
    · rw [hp] at hx
      exact hx
    · rw [hp] at hx
      exact List.mem_of_mem_erase hx
  · simpa using hx

/-- A run can only add the fresh pid to the registry. -/
theorem run_registry_sub (env : RunEnv) (w : World) (x : Nat)
    (hx : x ∈ (PlayerThread.run env w).w.registry) : x ∈ w.registry ∨ x = env.newPid := by
  unfold PlayerThread.run at hx
  split at hx
  · refine Or.inl ?_
    have h1 := terminate_registry_sub ⟨false, none⟩ (cleanupOrphaned env.preSockAlive w)
      env.tf x hx
    rwa [(cleanupOrphaned_fields env.preSockAlive w).2] at h1
  · split at hx
    · refine Or.inl ?_
      have h1 := terminate_registry_sub ⟨false, none⟩ (cleanupOrphaned env.preSockAlive w)
        env.tf x hx
      rwa [(cleanupOrphaned_fields env.preSockAlive w).2] at h1
    · simp only at hx
      by_cases hok : (connectLoop (fun i => env.connects.getD i false) 0 5).2 = true
      · rw [if_pos hok] at hx
        rcases mem_setAdd x env.newPid _ (by simpa using hx) with h | h
        · left
          rwa [(cleanupOrphaned_fields env.preSockAlive w).2] at h
        · exact Or.inr h
      · rw [if_neg hok] at hx
        have h1 := terminate_registry_sub ⟨true, some env.newPid⟩ _ env.tf x hx
        rcases mem_setAdd x env.newPid _ (by simpa using h1) with h | h
        · left
          rwa [(cleanupOrphaned_fields env.preSockAlive w).2] at h
        · exact Or.inr h

/-- Closed form of a run whose spawn succeeds and whose connect loop
succeeds. -/
theorem run_success_shape (env : RunEnv) (w : World)
    (hm : env.mpvFound = true) (hs : env.spawnOk = true)
    (hok : (connectLoop (fun i => env.connects.getD i false) 0 5).2 = true) :
    PlayerThread.run env w =
      ⟨.ok (), ⟨true, some env.newPid⟩,
       { registry := setAdd env.newPid (cleanupOrphaned env.preSockAlive w).registry,
         sockFile := true,
         live := setAdd env.newPid (cleanupOrphaned env.preSockAlive w).live },
       [Ev.spawn env.newPid, Ev.regAdd env.newPid] ++
         (connectLoop (fun i => env.connects.getD i false) 0 5).1,
       [cleanupOrphaned env.preSockAlive w,
        { cleanupOrphaned env.preSockAlive w with
            live := setAdd env.newPid (cleanupOrphaned env.preSockAlive w).live },
        { registry := setAdd env.newPid (cleanupOrphaned env.preSockAlive w).registry,
          sockFile := (cleanupOrphaned env.preSockAlive w).sockFile,
          live := setAdd env.newPid (cleanupOrphaned env.preSockAlive w).live },
        { registry := setAdd env.newPid (cleanupOrphaned env.preSockAlive w).registry,
          sockFile := true,
          live := setAdd env.newPid (cleanupOrphaned env.preSockAlive w).live }]⟩ := by
  unfold PlayerThread.run
  simp only [hm, hs, Bool.not_true, Bool.false_eq_true, if_false]
  rw [if_pos hok]

/-- C5 counterexample: with mpv absent, the worker thread's body fails with
EngineNotFound (the FileNotFoundError of player.py line 134), but nothing
reaches the caller of `Player.start` — `Thread.start` returns and line 470
sets `playing = True` unconditionally — so the typed error is NOT surfaced
to the caller, contradicting the claim. -/
theorem C5_counterexample :
    (Player.start ⟨false, none⟩ ⟨[], false, []⟩ noMpvEnv).runOutcome =
      .error .engineNotFound ∧
    (Player.start ⟨false, none⟩ ⟨[], false, []⟩ noMpvEnv).callerExc = none ∧
    (Player.start ⟨false, none⟩ ⟨[], false, []⟩ noMpvEnv).fc.playing = true := by
  decide

/-- C5 (amended): `Player.start` stops the current session synchronously and
then launches the worker; it sets playing=true unconditionally and never
raises to its caller — launch failures (EngineNotFound when the executable
is absent, ConnectFailed on retry exhaustion) stay inside the worker, which
cleans up after itself (the superseded session's pid is gone from the
registry), and are logged rather than surfaced or fatal. -/
theorem C5_start_amended (fc : Facade) (w : World) (env : RunEnv) :
    (Player.start fc w env).callerExc = none ∧
    (Player.start fc w env).fc.playing = true ∧
    (env.mpvFound = false → (Player.start fc w env).runOutcome = .error .engineNotFound) ∧
    (env.mpvFound = true → env.spawnOk = true →
      (∀ j, j < 5 → env.connects.getD j false = false) →
      (Player.start fc w env).runOutcome = .error .connectFailed) ∧
    (∀ ts p, fc.playback = some ts → ts.process = some p → p ≠ env.newPid →
      w.registry.Nodup → env.tf.envelope = true →
      p ∉ (Player.start fc w env).w.registry) := by
  refine ⟨rfl, rfl, ?_, ?_, ?_⟩
  · intro h
    show (PlayerThread.run env (Player.stop fc w env.tf).w).outcome = .error .engineNotFound
    unfold PlayerThread.run
    simp [h]
  · intro hm hs hfail
    have hlf := connectLoop_allFail (fun i => env.connects.getD i false) 0 5
      (by simpa using hfail)
    show (PlayerThread.run env (Player.stop fc w env.tf).w).outcome = .error .connectFailed
    unfold PlayerThread.run
    simp only [hm, hs, Bool.not_true, Bool.false_eq_true, if_false, hlf.1]
  · rintro ts p hpb hp hne hnd henv hmem
    have hsub := run_registry_sub env (Player.stop fc w env.tf).w p hmem
    have hstopreg : (Player.stop fc w env.tf).w.registry = w.registry.erase p := by
      unfold Player.stop
      rw [hpb]
      show (PlayerThread.terminate ts w env.tf).w.registry = w.registry.erase p
      rw [terminate_decomp ts w env.tf henv]
      show (unlinkStep (procStep ts w env.tf).w env.tf).1.registry = w.registry.erase p
      rw [(unlinkStep_registry _ env.tf).1, (procStep_w ts w env.tf).2, hp]
    rcases hsub with h | h
    · rw [hstopreg] at h
      exact absurd ((hnd.mem_erase_iff.mp h).1) (by simp)
    · exact hne h

/-- Witness for C5 at the concrete no-mpv environment. -/
theorem C5_witness :
    (Player.start ⟨true, some ⟨true, some 3⟩⟩ ⟨[3], false, [3]⟩ noMpvEnv).callerExc = none ∧
    (Player.start ⟨true, some ⟨true, some 3⟩⟩ ⟨[3], false, [3]⟩ noMpvEnv).runOutcome =
      .error .engineNotFound ∧
    3 ∉ (Player.start ⟨true, some ⟨true, some 3⟩⟩ ⟨[3], false, [3]⟩ noMpvEnv).w.registry :=
  ⟨(C5_start_amended ⟨true, some ⟨true, some 3⟩⟩ ⟨[3], false, [3]⟩ noMpvEnv).1,
   (C5_start_amended ⟨true, some ⟨true, some 3⟩⟩ ⟨[3], false, [3]⟩ noMpvEnv).2.2.1 rfl,
   (C5_start_amended ⟨true, some ⟨true, some 3⟩⟩ ⟨[3], false, [3]⟩ noMpvEnv).2.2.2.2
     ⟨true, some 3⟩ 3 rfl rfl (by decide) (by decide) rfl⟩

/-- C1: for every valid target, `start` followed by `stop` leaves the
process registry empty and the control-socket path absent: the run registers
the spawned engine's pid, and the stop removes that pid from the registry
and unlinks the socket file. -/
theorem C1_start_stop_clean (url : String) (p : Nat) (fc : Facade) (w : World)
    (hreg : w.registry = []) (hpb : fc.playback = none) :
    (Player.start fc w (happyEnv url p)).w.registry = [p] ∧
    (Player.start fc w (happyEnv url p)).runOutcome = .ok () ∧
    (Player.start fc w (happyEnv url p)).fc = ⟨true, some ⟨true, some p⟩⟩ ∧
    (Player.stop (Player.start fc w (happyEnv url p)).fc
      (Player.start fc w (happyEnv url p)).w TermFaults.noFaults).w.registry = [] ∧
    (Player.stop (Player.start fc w (happyEnv url p)).fc
      (Player.start fc w (happyEnv url p)).w TermFaults.noFaults).w.sockFile = false := by
  have hstop : Player.stop fc w (happyEnv url p).tf = ⟨fc, w, [], []⟩ := by
    unfold Player.stop
    rw [hpb]
  have hrun := run_success_shape (happyEnv url p) w rfl rfl rfl
  have hW : (Player.start fc w (happyEnv url p)).w =
      { registry := setAdd p (cleanupOrphaned false w).registry,
        sockFile := true,
        live := setAdd p (cleanupOrphaned false w).live } := by
    show (PlayerThread.run (happyEnv url p) (Player.stop fc w (happyEnv url p).tf).w).w = _
    rw [hstop]
    show (PlayerThread.run (happyEnv url p) w).w = _
    rw [hrun]
    rfl
  have hTs : (Player.start fc w (happyEnv url p)).fc = ⟨true, some ⟨true, some p⟩⟩ := by
    show (⟨true, some (PlayerThread.run (happyEnv url p)
      (Player.stop fc w (happyEnv url p).tf).w).ts⟩ : Facade) = _
    rw [hstop]
    show (⟨true, some (PlayerThread.run (happyEnv url p) w).ts⟩ : Facade) = _
    rw [hrun]
    rfl
  have hO : (Player.start fc w (happyEnv url p)).runOutcome = .ok () := by
    show (PlayerThread.run (happyEnv url p) (Player.stop fc w (happyEnv url p).tf).w).outcome = _
    rw [hstop]
    show (PlayerThread.run (happyEnv url p) w).outcome = _
    rw [hrun]
  have hRreg : (Player.start fc w (happyEnv url p)).w.registry = [p] := by
    rw [hW]
    show setAdd p (cleanupOrphaned false w).registry = [p]
    rw [(cleanupOrphaned_fields false w).2, hreg]
    simp [setAdd]
  refine ⟨hRreg, hO, hTs, ?_, ?_⟩
  · unfold Player.stop
    rw [hTs]
    show (PlayerThread.terminate ⟨true, some p⟩ (Player.start fc w (happyEnv url p)).w
      TermFaults.noFaults).w.registry = []
    rw [terminate_decomp _ _ TermFaults.noFaults rfl]
    show (unlinkStep (procStep ⟨true, some p⟩ (Player.start fc w (happyEnv url p)).w
      TermFaults.noFaults).w TermFaults.noFaults).1.registry = []
    rw [(unlinkStep_registry _ _).1, (procStep_w _ _ _).2]
    show ((Player.start fc w (happyEnv url p)).w.registry).erase p = []
    rw [hRreg]
    simp
  · unfold Player.stop
    rw [hTs]
    show (PlayerThread.terminate ⟨true, some p⟩ (Player.start fc w (happyEnv url p)).w
      TermFaults.noFaults).w.sockFile = false
    rw [terminate_decomp _ _ TermFaults.noFaults rfl]
    show (unlinkStep (procStep ⟨true, some p⟩ (Player.start fc w (happyEnv url p)).w
      TermFaults.noFaults).w TermFaults.noFaults).1.sockFile = false
    exact (unlinkStep_ok _ TermFaults.noFaults rfl).2.2.2.2 rfl

/-- Witness for C1 at a concrete world and target. -/
theorem C1_witness :
    (Player.start ⟨false, none⟩ ⟨[], true, []⟩ (happyEnv "u" 7)).w.registry = [7] ∧
    (Player.stop (Player.start ⟨false, none⟩ ⟨[], true, []⟩ (happyEnv "u" 7)).fc
      (Player.start ⟨false, none⟩ ⟨[], true, []⟩ (happyEnv "u" 7)).w
      TermFaults.noFaults).w.registry = [] ∧
    (Player.stop (Player.start ⟨false, none⟩ ⟨[], true, []⟩ (happyEnv "u" 7)).fc
      (Player.start ⟨false, none⟩ ⟨[], true, []⟩ (happyEnv "u" 7)).w
      TermFaults.noFaults).w.sockFile = false :=
  ⟨(C1_start_stop_clean "u" 7 ⟨false, none⟩ ⟨[], true, []⟩ rfl rfl).1,
   (C1_start_stop_clean "u" 7 ⟨false, none⟩ ⟨[], true, []⟩ rfl rfl).2.2.2.1,
   (C1_start_stop_clean "u" 7 ⟨false, none⟩ ⟨[], true, []⟩ rfl rfl).2.2.2.2⟩

/-- C2: starting a session and then starting another fully tears the first
down before spawning the second: the final state has exactly the one new
engine process live, and at every observation point of the whole two-start
history at most one engine process is live (no overlap window). -/
theorem C2_single_session (url1 url2 : String) (p1 p2 : Nat) (w : World)
    (hreg : w.registry = []) (hlive : w.live = []) :
    (Player.start (Player.start ⟨false, none⟩ w (happyEnv url1 p1)).fc
      (Player.start ⟨false, none⟩ w (happyEnv url1 p1)).w (happyEnv url2 p2)).w.live =
      [p2] ∧
    (∀ x ∈ w ::
        ((Player.start ⟨false, none⟩ w (happyEnv url1 p1)).hist ++
         (Player.start (Player.start ⟨false, none⟩ w (happyEnv url1 p1)).fc
           (Player.start ⟨false, none⟩ w (happyEnv url1 p1)).w (happyEnv url2 p2)).hist),
      x.live.length ≤ 1) := by
  obtain ⟨reg, sf, lv⟩ := w
  simp only at hreg hlive
  subst hreg
  subst hlive
  cases sf <;>
    simp [Player.start, Player.stop, PlayerThread.run, PlayerThread.terminate,
      closeSocketStep, procStep, gracefulTerm, sigTermPhase, unlinkStep, cleanupOrphaned,
      connectLoop, setAdd, happyEnv, TermFaults.noFaults, List.getD,
      List.forall_mem_cons]

/-- Witness for C2 at a concrete world and two targets. -/
theorem C2_witness :
    (Player.start (Player.start ⟨false, none⟩ ⟨[], false, []⟩ (happyEnv "a" 7)).fc
      (Player.start ⟨false, none⟩ ⟨[], false, []⟩ (happyEnv "a" 7)).w
      (happyEnv "b" 9)).w.live = [9] :=
  (C2_single_session "a" "b" 7 9 ⟨[], false, []⟩ rfl rfl).1

end YtmusicCli
